import Mathlib

/-!
Verification of the settlement engine of the crowdfunding backend.

The definitions below are a shallow embedding of the TypeScript sources:

* `src/types/index.ts`            — status and provider enums
* `src/models/Contribution.ts`    — contribution / session schemas and the
                                    contribution service
                                    (`markContributionSucceeded`,
                                    `markContributionFailed`, `requestRefund`)
* `src/models/PaymentEvent.ts`    — provider-event schema (unique
                                    `(provider, externalEventId)` index)
* `src/services/paymentService.ts`— `verifyStripeSignature`,
                                    `handleStripeWebhook`,
                                    `handleGopayWebhook`, `createRefund`

MongoDB collections are modelled as Lean lists; `findById` / `findOne`
become `List.find?`, `save` becomes an in-place replacement keyed by id,
and `$inc` updates become pointwise additions on `Int` counters.  A thrown
`AppError` (and any other exception) is modelled by returning the current
database state together with an `Except.error`: Mongo has no cross-document
transactions here, so writes performed before the throwing statement stay
visible, exactly as in the source.

External effects that no claim depends on are modelled as follows: the
audit log writes (`auditService.log`) are fire-and-forget appends never
read back by the engine and are omitted; the Node HMAC primitive
(`crypto.createHmac(...).digest('hex')`) is an abstract function parameter
`hmacHex : String → String → String`; `crypto.randomUUID()` is an explicit
`freshUuid` parameter; the Stripe API client is a `stripeConfigured` flag
plus the assumption that `stripe.refunds.create` succeeds; `new Date()` is
an explicit `now : Nat`.  A transient storage failure of the campaign
`$inc` write (the spec's `AggregateWriteFailure`) is modelled by the
boolean parameter `aggOk` of `markContributionSucceeded`.
-/

namespace Crowdfunding

/-- `ContributionStatus` from `src/types/index.ts`. -/
inductive ContributionStatus where
  | initiated
  | pending
  | succeeded
  | failed
  | refunded
deriving DecidableEq, Repr

/-- `PaymentProvider` from `src/types/index.ts`. -/
inductive PaymentProvider where
  | stripe
  | gopay
deriving DecidableEq, BEq, Repr

/-- The `payment` subdocument of a contribution (`paymentSchema` in
`src/models/Contribution.ts`).  `intentId` is declared `required` by the
schema but the webhook handler passes `payload.data?.id as string`, which
can be `undefined`; we therefore model it as an `Option`.  The opaque
`raw` metadata is never read by the engine and is omitted. -/
structure PaymentInfo where
  provider : PaymentProvider
  intentId : Option String
  chargeId : Option String
deriving DecidableEq, Repr

/-- A document of the `contributions` collection
(`contributionSchema` in `src/models/Contribution.ts`). -/
structure Contribution where
  id : Nat
  userId : Option Nat
  projectId : Nat
  rewardId : Option String
  amount : Int
  currency : String
  status : ContributionStatus
  payment : Option PaymentInfo
  paidAt : Option Nat
deriving DecidableEq, Repr

/-- A reward tier embedded in a project (`rewardSchema`).  The free-text
fields (`title`, `description`, `currency`) are never read by the
settlement engine and are omitted. -/
structure Reward where
  id : String
  price : Int
  limit : Option Int
  backersCount : Int
deriving DecidableEq, Repr

/-- The `stats` subdocument of a project. -/
structure ProjectStats where
  currentAmount : Int
  backerCount : Int
deriving DecidableEq, Repr

/-- A document of the `projects` collection, restricted to the fields the
settlement engine reads or writes. -/
structure Project where
  id : Nat
  stats : ProjectStats
  rewards : List Reward
deriving DecidableEq, Repr

/-- A document of the `users` collection, restricted to the `stats`
field the settlement engine writes. -/
structure User where
  id : Nat
  totalContributed : Int
deriving DecidableEq, Repr

/-- The webhook `payload.data` object; the engine only reads `data.id`
and `data.latest_charge`. -/
structure WebhookData where
  id : Option String
  latest_charge : Option String
deriving DecidableEq, Repr

/-- `WebhookPayload` from `src/services/paymentService.ts`. -/
structure WebhookPayload where
  type : String
  data : WebhookData
deriving DecidableEq, Repr

/-- A document of the `paymentEvents` collection
(`paymentEventSchema` in `src/models/PaymentEvent.ts`). -/
structure PaymentEvent where
  provider : PaymentProvider
  externalEventId : String
  type : String
  payload : WebhookData
  signatureValid : Bool
  receivedAt : Nat
  processedAt : Option Nat
  contributionId : Option Nat
deriving DecidableEq, Repr

/-- The database state: the four MongoDB collections the settlement
engine touches. -/
structure DB where
  contributions : List Contribution
  projects : List Project
  users : List User
  events : List PaymentEvent
deriving DecidableEq, Repr

/-- `AppError` from `src/api/middlewares/errorHandler.ts`:
HTTP status, message, machine-readable code. -/
structure AppError where
  httpStatus : Nat
  message : String
  code : String
deriving DecidableEq, Repr

/-- Anything a service function can throw: an `AppError`, a Mongoose
`ValidationError` raised by `document.save()`, or a transient
storage-layer error from an aggregate `$inc` write. -/
inductive Err where
  | app (e : AppError)
  | validation
  | transientStorage
deriving DecidableEq, Repr

/-- View of `Except` as a sum, to transport decidable equality. -/
def exceptToSum {ε α : Type} : Except ε α → ε ⊕ α
  | .error e => .inl e
  | .ok a => .inr a

instance {ε α : Type} [DecidableEq ε] [DecidableEq α] :
    DecidableEq (Except ε α) := fun x y =>
  decidable_of_iff (exceptToSum x = exceptToSum y)
    (by cases x <;> cases y <;> simp [exceptToSum])

/-! ## Signature verifier (`verifyStripeSignature`) -/

/-- JavaScript `String.prototype.split` with a one-character separator,
over the character list. -/
def splitCharAux (sep : Char) : List Char → List Char → List String
  | [], acc => [String.mk acc.reverse]
  | ch :: rest, acc =>
    if ch = sep then String.mk acc.reverse :: splitCharAux sep rest []
    else splitCharAux sep rest (ch :: acc)

/-- JavaScript `s.split(sep)` for a one-character separator `sep`
(the source only splits on `','` and `'='`). -/
def jsSplitChar (sep : Char) (s : String) : List String :=
  splitCharAux sep s.toList []

/-- JavaScript `s.startsWith(pre)`. -/
def jsStartsWith (s pre : String) : Bool :=
  pre.toList.isPrefixOf s.toList

/-- JavaScript `s.split(sep)[1]`: element 1 of the full split, or
`undefined` (`none`) when the split has fewer than two elements. -/
def jsSplitIdx1 (s : String) (sep : Char) : Option String :=
  (jsSplitChar sep s)[1]?

/-- JavaScript falsiness of an optional string: `undefined` and the
empty string are falsy. -/
def jsFalsyStr : Option String → Bool
  | none => true
  | some s => s = ("")

/-- `crypto.timingSafeEqual(Buffer.from(a), Buffer.from(b))` as observed
through the surrounding `try`/`catch`: it throws when the two buffers
differ in byte length, which the `catch` turns into `false`; equal-length
buffers compare bytewise. -/
def timingSafeEqualCaught (a b : String) : Bool :=
  if a.utf8ByteSize = b.utf8ByteSize then a == b else false

/-- `verifyStripeSignature` from `src/services/paymentService.ts`
(lines 22–37).  `hmacHex k m` stands for
`crypto.createHmac('sha256', k).update(m).digest('hex')`. -/
def verifyStripeSignature (hmacHex : String → String → String)
    (payload signature secret : String) : Bool :=
  let parts := jsSplitChar (',') signature
  let timestamp := (parts.find? (fun p => jsStartsWith p ("t="))).bind
    (fun p => jsSplitIdx1 p ('='))
  let v1 := (parts.find? (fun p => jsStartsWith p ("v1="))).bind
    (fun p => jsSplitIdx1 p ('='))
  if jsFalsyStr timestamp || jsFalsyStr v1 then false
  else
    let signedPayload := (timestamp.getD ("")) ++ (".") ++ payload
    let expectedSignature := hmacHex secret signedPayload
    timingSafeEqualCaught (v1.getD ("")) expectedSignature

/-- Following the spec's words (§4.1, §6): the signature header is a list
of comma-separated `key=value` pairs; this extracts the value of the
first pair carrying the given key. -/
def headerComponent (signature key : String) : Option String :=
  ((jsSplitChar (',') signature).find? (fun p => jsStartsWith p (key ++ ("=")))).bind
    (fun p => (jsSplitChar ('=') p)[1]?)

/-- Spec-side acceptance condition for the signature verifier: the header
carries a (non-empty) timestamp component `t` and digest component `v1`,
and `v1` equals the hex HMAC of `t ++ "." ++ payload` under the secret. -/
def stripeSignatureSpecAccepts (hmacHex : String → String → String)
    (payload signature secret : String) : Prop :=
  ∃ t v1,
    headerComponent signature ("t") = some t ∧ t ≠ ("") ∧
    headerComponent signature ("v1") = some v1 ∧ v1 ≠ ("") ∧
    v1 = hmacHex secret (t ++ (".") ++ payload)

/-! ## Collection primitives -/

/-- `Contribution.findById(contributionId)`. -/
def findContribution (db : DB) (contributionId : Nat) : Option Contribution :=
  db.contributions.find? (fun c => c.id == contributionId)

/-- Replace the contribution document with the matching id. -/
def saveContributionList (c : Contribution) (l : List Contribution) :
    List Contribution :=
  l.map (fun x => if x.id == c.id then c else x)

/-- `contribution.save()`: replace the document with the matching id. -/
def saveContribution (db : DB) (c : Contribution) : DB :=
  { db with contributions := saveContributionList c db.contributions }

/-- The `$inc` on a campaign's stats, over the projects collection. -/
def projectIncStatsList (pid : Nat) (amt cnt : Int) (P : List Project) :
    List Project :=
  P.map (fun p =>
    if p.id == pid then
      { p with stats := { currentAmount := p.stats.currentAmount + amt,
                          backerCount := p.stats.backerCount + cnt } }
    else p)

/-- `Project.findByIdAndUpdate(pid, { $inc: { 'stats.currentAmount': amt,
'stats.backerCount': cnt } })`: a no-op when the project is absent. -/
def projectIncStats (db : DB) (pid : Nat) (amt cnt : Int) : DB :=
  { db with projects := projectIncStatsList pid amt cnt db.projects }

/-- The `$` positional operator of
`{ $inc: { 'rewards.$.backersCount': d } }`: increment the first reward
of the list whose `id` matches. -/
def incFirstReward (rid : String) (d : Int) : List Reward → List Reward
  | [] => []
  | r :: rs =>
    if r.id == rid then { r with backersCount := r.backersCount + d } :: rs
    else r :: incFirstReward rid d rs

/-- The reward `$inc`, over the projects collection. -/
def projectIncRewardBackersList (pid : Nat) (rid : String) (d : Int)
    (P : List Project) : List Project :=
  P.map (fun p =>
    if p.id == pid then { p with rewards := incFirstReward rid d p.rewards }
    else p)

/-- `Project.updateOne({ _id: pid, 'rewards.id': rid },
{ $inc: { 'rewards.$.backersCount': d } })`. -/
def projectIncRewardBackers (db : DB) (pid : Nat) (rid : String) (d : Int) : DB :=
  { db with projects := projectIncRewardBackersList pid rid d db.projects }

/-- The `$inc` on a user's stats, over the users collection. -/
def userIncTotalList (uid : Nat) (amt : Int) (U : List User) : List User :=
  U.map (fun u =>
    if u.id == uid then { u with totalContributed := u.totalContributed + amt }
    else u)

/-- `User.findByIdAndUpdate(uid, { $inc: { 'stats.totalContributed': amt } })`. -/
def userIncTotal (db : DB) (uid : Nat) (amt : Int) : DB :=
  { db with users := userIncTotalList uid amt db.users }

/-- `Contribution.findOne({ 'payment.intentId': intentId })`.  Mongoose
strips `undefined` values from query filters, so an `undefined` intent id
turns the query into `findOne({})`, which returns the first document of
the collection. -/
def findContributionByIntent (contributions : List Contribution)
    (intentId : Option String) : Option Contribution :=
  match intentId with
  | none => contributions.head?
  | some i => contributions.find? (fun c =>
      match c.payment with
      | some p => p.intentId == some i
      | none => false)

/-! ## Contribution state machine (`src/models/Contribution.ts`, service part) -/

/-- Mongoose document validation as run by `contribution.save()`: the
`payment` subdocument, when present, declares `intentId` a required
String — both `undefined` and the empty string fail the required-String
check, making `save()` throw a `ValidationError`.  A document without a
`payment` subdocument is valid (the `payment` path itself is not
required). -/
def validContribution (c : Contribution) : Bool :=
  match c.payment with
  | none => true
  | some p => !(jsFalsyStr p.intentId)

def contributionNotFound : Err :=
  .app { httpStatus := 404, message := "Contribution not found",
         code := "CONTRIBUTION_NOT_FOUND" }

/-- The write sequence of `markContributionSucceeded` once the guard has
passed, lines 247–273: set status/paidAt/payment and save, then the three
aggregate `$inc` writes.  `save()` first validates the document
(`intentId` required): on an invalid payment subdocument it throws a
`ValidationError` and nothing is persisted.  `aggOk = false` models a
transient storage failure of the campaign `$inc`
(`Project.findByIdAndUpdate`) — the contribution save has already been
persisted when it throws. -/
def succeededWrites (aggOk : Bool) (now : Nat) (paymentData : PaymentInfo)
    (c : Contribution) (db : DB) : DB × Except Err Contribution :=
  let c' := { c with status := .succeeded, paidAt := some now,
                     payment := some paymentData }
  if validContribution c' then
    let db1 := saveContribution db c'
    if aggOk then
      let db2 := projectIncStats db1 c'.projectId c'.amount 1
      let db3 := match c'.rewardId with
        | some rid => projectIncRewardBackers db2 c'.projectId rid 1
        | none => db2
      let db4 := match c'.userId with
        | some uid => userIncTotal db3 uid c'.amount
        | none => db3
      (db4, .ok c')
    else (db1, .error .transientStorage)
  else (db, .error .validation)

/-- `markContributionSucceeded` from the contribution service
(`src/models/Contribution.ts` lines 226–285). -/
def markContributionSucceeded (aggOk : Bool) (now : Nat) (db : DB)
    (contributionId : Nat) (paymentData : PaymentInfo) :
    DB × Except Err Contribution :=
  match findContribution db contributionId with
  | none => (db, .error contributionNotFound)
  | some c =>
    if c.status = .succeeded then (db, .ok c) -- Idempotent
    else succeededWrites aggOk now paymentData c db

/-- `markContributionFailed` (lines 287–309).  Note: the source sets
`status = FAILED` unconditionally — there is no guard on the current
status.  Its `save()` runs document validation like any other. -/
def markContributionFailed (db : DB) (contributionId : Nat) :
    DB × Except Err Contribution :=
  match findContribution db contributionId with
  | none => (db, .error contributionNotFound)
  | some c =>
    let c' := { c with status := ContributionStatus.failed }
    if validContribution c' then (saveContribution db c', .ok c')
    else (db, .error .validation)

def refundForbidden : Err :=
  .app { httpStatus := 403, message := "Not authorized", code := "FORBIDDEN" }

def refundInvalidStatus : Err :=
  .app { httpStatus := 400, message := "Can only refund successful contributions",
         code := "INVALID_STATUS" }

/-- `requestRefund` (lines 311–338): owner and status checks followed by
an audit write only; it does not change the contribution. -/
def requestRefund (db : DB) (contributionId userId : Nat) :
    DB × Except Err Contribution :=
  match findContribution db contributionId with
  | none => (db, .error contributionNotFound)
  | some c =>
    if c.userId ≠ some userId then (db, .error refundForbidden)
    else if c.status ≠ .succeeded then (db, .error refundInvalidStatus)
    else (db, .ok c)

def invalidStateTransition : Err :=
  .app { httpStatus := 400, message := "Invalid state transition",
         code := "INVALID_STATE_TRANSITION" }

/-- Modelled from the spec: `markContributionRefunded` is invoked by
`createRefund` in `src/services/paymentService.ts` but its definition is
not among the provided sources.  Spec §4.2: "allowed only from
`SUCCEEDED`; triggers reversal of aggregate side effects (subtract
amount, decrement counts) via the Aggregate Reconciler's inverse path";
§4.4: the reverse direction "applies the exact negation of the forward
effects, using the same contribution record (amount, reward reference,
contributor) captured at success time". -/
def markContributionRefunded (db : DB) (contributionId : Nat) :
    DB × Except Err Contribution :=
  match findContribution db contributionId with
  | none => (db, .error contributionNotFound)
  | some c =>
    if c.status ≠ .succeeded then (db, .error invalidStateTransition)
    else
      let c' := { c with status := ContributionStatus.refunded }
      let db1 := saveContribution db c'
      let db2 := projectIncStats db1 c'.projectId (-c'.amount) (-1)
      let db3 := match c'.rewardId with
        | some rid => projectIncRewardBackers db2 c'.projectId rid (-1)
        | none => db2
      let db4 := match c'.userId with
        | some uid => userIncTotal db3 uid (-c'.amount)
        | none => db3
      (db4, .ok c')

def refundInvalidContributionStatus : Err :=
  .app { httpStatus := 400, message := "Can only refund succeeded contributions",
         code := "INVALID_CONTRIBUTION_STATUS" }

def noPaymentIntent : Err :=
  .app { httpStatus := 400, message := "No payment intent found",
         code := "NO_PAYMENT_INTENT" }

def providerNotConfigured : Err :=
  .app { httpStatus := 500, message := "Payment provider not configured",
         code := "PAYMENT_PROVIDER_NOT_CONFIGURED" }

/-- `createRefund` from `src/services/paymentService.ts` (lines 216–249).
The guard `!contribution.payment?.intentId` is a JavaScript falsiness
check: it throws `NO_PAYMENT_INTENT` when the payment subdocument is
absent, when `intentId` is `undefined`, and also when it is the empty
string.  The outbound `stripe.refunds.create` call is an external effect
modelled as succeeding; `stripeConfigured` models whether the Stripe
client was initialised from `STRIPE_SECRET_KEY`. -/
def createRefund (stripeConfigured : Bool) (db : DB) (contributionId : Nat) :
    DB × Except Err Unit :=
  match findContribution db contributionId with
  | none => (db, .error contributionNotFound)
  | some c =>
    if c.status ≠ .succeeded then (db, .error refundInvalidContributionStatus)
    else if jsFalsyStr (c.payment.bind (fun p => p.intentId)) then
      (db, .error noPaymentIntent)
    else if ¬stripeConfigured then (db, .error providerNotConfigured)
    else
      let (db1, r) := markContributionRefunded db contributionId
      match r with
      | .ok _ => (db1, .ok ())
      | .error e => (db1, .error e)

/-! ## Webhook dispatch (`handleStripeWebhook`, `handleGopayWebhook`) -/

/-- JavaScript `a || b` on an optional string `a`: `b` when `a` is
`undefined` or empty. -/
def jsStringOr (a : Option String) (b : String) : String :=
  match a with
  | none => b
  | some s => if s = ("") then b else s

/-- The duplicate check `PaymentEvent.findOne({ provider, externalEventId })`. -/
def findEvent (events : List PaymentEvent) (provider : PaymentProvider)
    (externalEventId : String) : Option PaymentEvent :=
  events.find? (fun e =>
    decide (e.provider = provider ∧ e.externalEventId = externalEventId))

/-- `event.processedAt = new Date(); event.contributionId = cid;
await event.save()` — stamp the ledger row after downstream processing.
The row is addressed by its unique `(provider, externalEventId)` pair. -/
def stampEvent (db : DB) (provider : PaymentProvider) (externalEventId : String)
    (now : Nat) (cid : Option Nat) : DB :=
  { db with events := db.events.map (fun e =>
      if e.provider = provider ∧ e.externalEventId = externalEventId then
        { e with processedAt := some now, contributionId := cid }
      else e) }

/-- The `try` block of `handleStripeWebhook` (lines 74–114): dispatch on
the event type, then stamp the ledger row as processed; a thrown error
is rethrown by the `catch`, so the stamp does not happen and the
partially-updated state stays.  `db1` is the state right after the event
row was created. -/
def processStripeEvent (aggOk : Bool) (now : Nat) (externalEventId : String)
    (payload : WebhookPayload) (db1 : DB) : DB × Except Err Unit :=
  if payload.type = ("payment_intent.succeeded") then
    match findContributionByIntent db1.contributions payload.data.id with
    | some c =>
      let (db2, r) := markContributionSucceeded aggOk now db1 c.id
        { provider := .stripe, intentId := payload.data.id,
          chargeId := payload.data.latest_charge }
      match r with
      | .ok _ => (stampEvent db2 .stripe externalEventId now (some c.id), .ok ())
      | .error e => (db2, .error e)
    | none => (stampEvent db1 .stripe externalEventId now none, .ok ())
  else if payload.type = ("payment_intent.payment_failed") then
    match findContributionByIntent db1.contributions payload.data.id with
    | some c =>
      let (db2, r) := markContributionFailed db1 c.id
      match r with
      | .ok _ => (stampEvent db2 .stripe externalEventId now (some c.id), .ok ())
      | .error e => (db2, .error e)
    | none => (stampEvent db1 .stripe externalEventId now none, .ok ())
  else
    -- Unknown event type, just log it
    (stampEvent db1 .stripe externalEventId now none, .ok ())

/-- `handleStripeWebhook` from `src/services/paymentService.ts`
(lines 39–115).

* `secret` is `process.env.STRIPE_WEBHOOK_SECRET`;
* `freshUuid` is the value `crypto.randomUUID()` would return;
* `aggOk = false` makes the campaign `$inc` inside
  `markContributionSucceeded` fail transiently;
* an `Except.error` result models the rethrow of the `catch` block
  (lines 111–114); the route answers 200 to the provider either way. -/
def handleStripeWebhook (secret : Option String)
    (hmacHex : String → String → String) (freshUuid : String) (aggOk : Bool)
    (now : Nat) (db : DB) (payload : WebhookPayload)
    (rawBody signature : String) : DB × Except Err Unit :=
  let signatureValid := match secret with
    | some s => verifyStripeSignature hmacHex rawBody signature s
    | none => true
  let externalEventId := jsStringOr payload.data.id freshUuid
  if (findEvent db.events .stripe externalEventId).isSome then
    (db, .ok ()) -- Already processed
  else
    let ev : PaymentEvent :=
      { provider := .stripe, externalEventId, type := payload.type,
        payload := payload.data, signatureValid, receivedAt := now,
        processedAt := none, contributionId := none }
    processStripeEvent aggOk now externalEventId payload
      { db with events := db.events ++ [ev] }

/-- `handleGopayWebhook` (lines 117–141): admission only, the row is
created already stamped. -/
def handleGopayWebhook (freshUuid : String) (now : Nat) (db : DB)
    (payload : WebhookPayload) : DB × Except Err Unit :=
  let externalEventId := jsStringOr payload.data.id freshUuid
  if (findEvent db.events .gopay externalEventId).isSome then
    (db, .ok ())
  else
    let ev : PaymentEvent :=
      { provider := .gopay, externalEventId, type := payload.type,
        payload := payload.data, signatureValid := true, receivedAt := now,
        processedAt := some now, contributionId := none }
    ({ db with events := db.events ++ [ev] }, .ok ())

/-! ## Engine operation sequences -/

/-- One operation of the settlement engine on the contribution state
machine, as dispatched by the webhook handlers and the refund endpoint. -/
inductive EngineOp where
  | succeed (contributionId : Nat) (paymentData : PaymentInfo)
  | fail (contributionId : Nat)
  | refund (contributionId : Nat)
deriving DecidableEq, Repr

/-- Run one engine operation, keeping the database state whatever the
call's outcome. -/
def runEngineOp (now : Nat) (db : DB) : EngineOp → DB
  | .succeed cid pd => (markContributionSucceeded true now db cid pd).1
  | .fail cid => (markContributionFailed db cid).1
  | .refund cid => (createRefund true db cid).1

/-- Run a sequence of engine operations. -/
def runEngineOps (now : Nat) (ops : List EngineOp) (db : DB) : DB :=
  ops.foldl (runEngineOp now) db

/-! ## Two-phase view of `markContributionSucceeded` for concurrency

The source performs the transition as a read (`findById`), an in-memory
status check, and a separate `save` plus `$inc` writes.  Two concurrent
request handlers for the same contribution interleave these phases.  A
single caller's execution is split into its read phase (the `findById`)
and its apply phase (the status check against the snapshot it read,
followed — when the snapshot is not `SUCCEEDED` — by exactly the write
sequence `succeededWrites` of the sequential function). -/

/-- Read phase: the `findById` of `markContributionSucceeded`. -/
def markSucceededRead (db : DB) (contributionId : Nat) : Option Contribution :=
  findContribution db contributionId

/-- Apply phase: the status check and writes of
`markContributionSucceeded`, driven by the snapshot obtained in the read
phase, executed against the then-current database state. -/
def markSucceededApply (now : Nat) (paymentData : PaymentInfo) (db : DB)
    (snapshot : Option Contribution) : DB :=
  match snapshot with
  | none => db
  | some c =>
    if c.status = .succeeded then db
    else (succeededWrites true now paymentData c db).1

/-! ## Concrete fixtures (the scenario of spec §8: contribution of 500
with reward `r1`) -/

/-- A pending contribution of 500 toward project 2, reward `r1`,
by user 10, with Stripe intent `pi_1`. -/
def sampleContribution : Contribution :=
  { id := 1, userId := some 10, projectId := 2, rewardId := some ("r1"),
    amount := 500, currency := ("CZK"), status := .pending,
    payment := some { provider := .stripe, intentId := some ("pi_1"),
                      chargeId := none },
    paidAt := none }

/-- Project 2 with zeroed stats and reward `r1` (limit 50, 2 backers). -/
def sampleProject : Project :=
  { id := 2, stats := { currentAmount := 0, backerCount := 0 },
    rewards := [{ id := ("r1"), price := 100, limit := some 50, backersCount := 2 }] }

def sampleUser : User := { id := 10, totalContributed := 0 }

/-- Database holding exactly the sample contribution, project and user. -/
def sampleDB : DB :=
  { contributions := [sampleContribution], projects := [sampleProject],
    users := [sampleUser], events := [] }

def samplePayment : PaymentInfo :=
  { provider := .stripe, intentId := some ("pi_1"), chargeId := some ("ch_1") }

/-- The sample contribution after settlement at time 7. -/
def sampleContributionSucceeded : Contribution :=
  { sampleContribution with status := .succeeded, paidAt := some 7,
                            payment := some samplePayment }

/-- The sample database with the contribution already settled (status
`SUCCEEDED`), its forward effects applied to project and user. -/
def sampleDBSucceeded : DB :=
  { contributions := [sampleContributionSucceeded],
    projects := [{ id := 2, stats := { currentAmount := 500, backerCount := 1 },
                   rewards := [{ id := ("r1"), price := 100, limit := some 50,
                                 backersCount := 3 }] }],
    users := [{ id := 10, totalContributed := 500 }],
    events := [] }

/-! ## C1 -/

/-- C1: the claimed campaign-aggregate invariant fails on the code.  For
the engine-operation sequence "success event, failure event, second
success event" on the single sample contribution (amount 500), the final
campaign stats are `currentAmount = 1000`, `backerCount = 2` — the one
contribution that ever reached `SUCCEEDED` is counted twice, because
`markContributionFailed` regresses a `SUCCEEDED` contribution and the
second success then re-applies the forward reconciliation. -/
theorem campaignInvariant_violated_by_replayed_success :
    (runEngineOps 7 [.succeed 1 samplePayment, .fail 1, .succeed 1 samplePayment]
        sampleDB).projects.map (fun p => p.stats) =
      [{ currentAmount := 1000, backerCount := 2 }] ∧
    sampleDB.contributions.map (fun c => (c.id, c.amount)) = [(1, 500)] := by
  decide

/-! ## C2 -/

/-- C2: the transition graph is not enforced.  On a database whose only
contribution is in status `SUCCEEDED`, `markContributionFailed` succeeds
and moves it to `FAILED`, regressing a settled contribution — the source
has no guard on the current status. -/
theorem markContributionFailed_regresses_succeeded :
    ((markContributionFailed sampleDBSucceeded 1).1.contributions.map
        (fun c => c.status) = [ContributionStatus.failed]) ∧
    (markContributionFailed sampleDBSucceeded 1).2 =
      .ok { sampleContributionSucceeded with status := .failed } := by
  decide

/-! ## C3 -/

/-- C3: `markContributionSucceeded` is idempotent.  When the contribution
is found and already `SUCCEEDED`, the call returns the stored record
unchanged together with the unchanged database — no contribution,
campaign, reward or user field is touched, whichever admitted event the
call came from. -/
theorem markContributionSucceeded_idempotent (aggOk : Bool) (now : Nat)
    (db : DB) (cid : Nat) (pd : PaymentInfo) (c : Contribution)
    (hfind : findContribution db cid = some c)
    (hst : c.status = .succeeded) :
    markContributionSucceeded aggOk now db cid pd = (db, .ok c) := by
  simp [markContributionSucceeded, hfind, hst]

/-- Witness for C3 at the settled sample database. -/
theorem markContributionSucceeded_idempotent_witness :
    markContributionSucceeded true 99 sampleDBSucceeded 1 samplePayment =
      (sampleDBSucceeded, .ok sampleContributionSucceeded) :=
  markContributionSucceeded_idempotent true 99 sampleDBSucceeded 1
    samplePayment sampleContributionSucceeded (by decide) (by decide)

/-! ## C4 -/

/-- C4: the `SUCCEEDED` transition is not an atomic conditional write.
The source reads the contribution (`findById`), checks the status in
memory, and then saves and applies the `$inc` writes as separate
operations.  In the interleaving where both concurrent callers perform
their read phase before either applies, both observe the `PENDING`
snapshot and both apply the forward reconciliation: the campaign ends at
`currentAmount = 1000`, `backerCount = 2` for a single 500 contribution
— two forward reconciliations, refuting "at most one caller observes a
non-succeeded state and exactly one forward reconciliation is applied". -/
theorem concurrent_markSucceeded_double_reconciliation :
    ((markSucceededRead sampleDB 1).map (fun c => c.status) = some .pending) ∧
    (markSucceededApply 7 samplePayment
        (markSucceededApply 7 samplePayment sampleDB (markSucceededRead sampleDB 1))
        (markSucceededRead sampleDB 1)).projects.map (fun p => p.stats) =
      [{ currentAmount := 1000, backerCount := 2 }] := by
  decide

/-! ## C5 -/

/-- Iterated redelivery of the same webhook: the database after `n`
further deliveries. -/
def iterateHandler (f : DB → DB × Except Err Unit) : Nat → DB → DB
  | 0, db => db
  | n + 1, db => iterateHandler f n (f db).1

/-- If the ledger already holds an event for the pair
`(stripe, externalEventId)` computed from the payload, the handler finds
it and returns at once. -/
theorem findEvent_isSome_of_mem {events : List PaymentEvent} {p : PaymentProvider}
    {eid : String} {e : PaymentEvent} (he : e ∈ events) (hp : e.provider = p)
    (hid : e.externalEventId = eid) :
    (findEvent events p eid).isSome = true := by
  rcases h : findEvent events p eid with _ | ev
  · exact absurd (by simpa using List.find?_eq_none.mp h e he) (by simp [hp, hid])
  · rfl

/-- C5: provider-event-level idempotency (sequential deliveries).  When
the ledger already records an event with the pair
`(stripe, externalEventId)` carried by the delivery, `handleStripeWebhook`
acknowledges it exactly as a processed original — it returns successfully
— and leaves the whole database (contributions, campaign aggregates,
reward counts, user stats, ledger) unchanged; iterating the redelivery
any number of times still leaves the database unchanged. -/
theorem handleStripeWebhook_redelivery_noop (secret : Option String)
    (hmacHex : String → String → String) (freshUuid : String) (aggOk : Bool)
    (now : Nat) (db : DB) (payload : WebhookPayload)
    (rawBody signature : String) (e : PaymentEvent)
    (he : e ∈ db.events) (hp : e.provider = .stripe)
    (hid : e.externalEventId = jsStringOr payload.data.id freshUuid) :
    handleStripeWebhook secret hmacHex freshUuid aggOk now db payload
        rawBody signature = (db, .ok ()) ∧
    ∀ n, iterateHandler
        (fun d => handleStripeWebhook secret hmacHex freshUuid aggOk now d
          payload rawBody signature) n db = db := by
  have hfind := findEvent_isSome_of_mem he hp hid
  have hstep : handleStripeWebhook secret hmacHex freshUuid aggOk now db payload
      rawBody signature = (db, .ok ()) := by
    simp only [handleStripeWebhook, hfind, if_true]
  refine ⟨hstep, fun n => ?_⟩
  induction n with
  | zero => rfl
  | succ m ih => simpa [iterateHandler, hstep] using ih

/-- A ledger row for the already-delivered event `evt_1`. -/
def sampleStoredEvent : PaymentEvent :=
  { provider := .stripe, externalEventId := ("evt_1"),
    type := ("payment_intent.succeeded"),
    payload := { id := some ("evt_1"), latest_charge := none },
    signatureValid := true, receivedAt := 3,
    processedAt := some 4, contributionId := none }

/-- A database whose ledger already holds `evt_1`. -/
def sampleDBWithEvent : DB :=
  { contributions := [], projects := [], users := [],
    events := [sampleStoredEvent] }

/-- The payload of a redelivery of `evt_1`. -/
def sampleRedelivery : WebhookPayload :=
  { type := ("payment_intent.succeeded"),
    data := { id := some ("evt_1"), latest_charge := none } }

/-- Witness for C5 at a ledger already holding the event `evt_1`. -/
theorem handleStripeWebhook_redelivery_noop_witness :
    handleStripeWebhook (some ("whsec")) (fun k m => k ++ m) ("u1") true 9
        sampleDBWithEvent sampleRedelivery ("raw") ("sig") =
      (sampleDBWithEvent, .ok ()) :=
  (handleStripeWebhook_redelivery_noop (some ("whsec")) (fun k m => k ++ m)
    ("u1") true 9 sampleDBWithEvent sampleRedelivery ("raw") ("sig")
    sampleStoredEvent (by decide) (by decide) (by decide)).1

/-! ## C9 -/

/-- The caught constant-time comparison succeeds exactly on equal
strings: equal-length unequal buffers compare `false`, and a length
mismatch throws, which the `catch` also turns into `false`. -/
theorem timingSafeEqualCaught_eq_true_iff (a b : String) :
    timingSafeEqualCaught a b = true ↔ a = b := by
  unfold timingSafeEqualCaught
  split
  · simp
  · next h =>
      simp only [Bool.false_eq_true, false_iff]
      intro hab
      exact h (hab ▸ rfl)

/-- C9: characterization of `verifyStripeSignature`.  It returns `true`
exactly when the comma-separated header carries a non-empty timestamp
component `t` and a non-empty digest component `v1` with `v1` equal to
the hex HMAC of `t ++ "." ++ payload` under the secret; in particular it
returns `false` on any parse failure, missing component, or digest
mismatch (and, being a total function, never throws — the only throwing
operation of the source, the length mismatch inside
`crypto.timingSafeEqual`, is caught and yields `false`). -/
theorem verifyStripeSignature_characterization
    (hmacHex : String → String → String) (payload signature secret : String) :
    verifyStripeSignature hmacHex payload signature secret = true ↔
      stripeSignatureSpecAccepts hmacHex payload signature secret := by
  have hkeyT : ("t") ++ ("=") = ("t=") := by decide
  have hkeyV : ("v1") ++ ("=") = ("v1=") := by decide
  unfold verifyStripeSignature stripeSignatureSpecAccepts headerComponent jsSplitIdx1
  simp only [hkeyT, hkeyV]
  rcases hT : ((jsSplitChar (',') signature).find? (fun p => jsStartsWith p ("t="))).bind
      (fun p => (jsSplitChar ('=') p)[1]?) with _ | t <;>
    rcases hV : ((jsSplitChar (',') signature).find? (fun p => jsStartsWith p ("v1="))).bind
        (fun p => (jsSplitChar ('=') p)[1]?) with _ | v
  · simp [hT, hV, jsFalsyStr]
  · simp [hT, hV, jsFalsyStr]
  · simp [hT, hV, jsFalsyStr]
  · simp only [hT, hV, jsFalsyStr, Option.getD, Option.some.injEq]
    by_cases ht0 : t = ("")
    · simp [ht0]
    · by_cases hv0 : v = ("")
      · simp [ht0, hv0]
      · rw [if_neg (by simp [ht0, hv0])]
        rw [timingSafeEqualCaught_eq_true_iff]
        constructor
        · intro h
          exact ⟨t, v, rfl, ht0, rfl, hv0, h⟩
        · rintro ⟨t', v', ht', _, hv', _, h⟩
          cases ht'; cases hv'; exact h

/-! ## Ledger-preservation lemmas: the contribution state machine never
touches the `paymentEvents` collection. -/

theorem succeededWrites_events (aggOk : Bool) (now : Nat) (pd : PaymentInfo)
    (c : Contribution) (db : DB) :
    ((succeededWrites aggOk now pd c db).1).events = db.events := by
  cases aggOk <;> cases hr : c.rewardId <;> cases hu : c.userId <;>
    simp [succeededWrites, saveContribution, projectIncStats,
      projectIncRewardBackers, userIncTotal, hr, hu] <;>
    split <;> rfl

theorem markContributionSucceeded_events (aggOk : Bool) (now : Nat) (db : DB)
    (cid : Nat) (pd : PaymentInfo) :
    ((markContributionSucceeded aggOk now db cid pd).1).events = db.events := by
  rcases h : findContribution db cid with _ | c
  · simp [markContributionSucceeded, h]
  · by_cases hs : c.status = .succeeded
    · simp [markContributionSucceeded, h, hs]
    · simp [markContributionSucceeded, h, hs, succeededWrites_events]

theorem markContributionFailed_events (db : DB) (cid : Nat) :
    ((markContributionFailed db cid).1).events = db.events := by
  rcases h : findContribution db cid with _ | c <;>
    simp [markContributionFailed, h, saveContribution] <;>
    split <;> rfl

/-- Stamping a ledger row changes only `processedAt` and
`contributionId`; the recorded signature validity of every row stays. -/
theorem stampEvent_signatureValid_map (db : DB) (p : PaymentProvider)
    (eid : String) (now : Nat) (cid : Option Nat) :
    ((stampEvent db p eid now cid).events).map (fun e => e.signatureValid) =
      db.events.map (fun e => e.signatureValid) := by
  simp only [stampEvent, List.map_map]
  apply List.map_congr_left
  intro e _
  by_cases h : e.provider = p ∧ e.externalEventId = eid <;> simp [h]

/-- Downstream processing never changes the recorded signature validity
of any ledger row. -/
theorem processStripeEvent_signatureValid_map (aggOk : Bool) (now : Nat)
    (eid : String) (payload : WebhookPayload) (db1 : DB) :
    ((processStripeEvent aggOk now eid payload db1).1).events.map
        (fun e => e.signatureValid) =
      db1.events.map (fun e => e.signatureValid) := by
  unfold processStripeEvent
  by_cases ht : payload.type = ("payment_intent.succeeded")
  · rw [if_pos ht]
    rcases hfc : findContributionByIntent db1.contributions payload.data.id
      with _ | c
    · simp [hfc, stampEvent_signatureValid_map]
    · simp only [hfc]
      rcases hm : markContributionSucceeded aggOk now db1 c.id
          { provider := .stripe, intentId := payload.data.id,
            chargeId := payload.data.latest_charge } with ⟨db2, r⟩
      have hev : db2.events = db1.events := by
        have h2 := markContributionSucceeded_events aggOk now db1 c.id
          { provider := .stripe, intentId := payload.data.id,
            chargeId := payload.data.latest_charge }
        rw [hm] at h2
        exact h2
      rcases r with e | c' <;> simp [hm, stampEvent_signatureValid_map, hev]
  · rw [if_neg ht]
    by_cases hf : payload.type = ("payment_intent.payment_failed")
    · rw [if_pos hf]
      rcases hfc : findContributionByIntent db1.contributions payload.data.id
        with _ | c
      · simp [hfc, stampEvent_signatureValid_map]
      · simp only [hfc]
        rcases hm : markContributionFailed db1 c.id with ⟨db2, r⟩
        have hev : db2.events = db1.events := by
          have h2 := markContributionFailed_events db1 c.id
          rw [hm] at h2
          exact h2
        rcases r with e | c' <;> simp [hm, stampEvent_signatureValid_map, hev]
    · rw [if_neg hf]
      exact stampEvent_signatureValid_map db1 .stripe eid now none

/-! ## C8 -/

/-- C8 (amended): when no webhook secret is configured, the admission
decision bypasses verification, and the admitted event is persisted with
`signatureValid = true` — the literal `true` of
`secret ? verifyStripeSignature(...) : true` — regardless of the actual
signature; the rest of the ledger's recorded validity flags stay
unchanged. -/
theorem handleStripeWebhook_records_valid_without_secret
    (hmacHex : String → String → String) (freshUuid : String) (aggOk : Bool)
    (now : Nat) (db : DB) (payload : WebhookPayload)
    (rawBody signature : String)
    (hnodup : findEvent db.events .stripe (jsStringOr payload.data.id freshUuid)
      = none) :
    ((handleStripeWebhook none hmacHex freshUuid aggOk now db payload
        rawBody signature).1).events.map (fun e => e.signatureValid) =
      db.events.map (fun e => e.signatureValid) ++ [true] := by
  unfold handleStripeWebhook
  simp only [hnodup, Option.isSome_none, Bool.false_eq_true, if_false]
  rw [processStripeEvent_signatureValid_map]
  simp

/-- A stand-in for the Node HMAC primitive at concrete inputs. -/
def hmacToy (k m : String) : String := k ++ (":") ++ m

/-- C8 counterexample: with no secret configured and a signature that is
not valid under any parse (here the unparseable header `"sig"`), the
stored `ProviderEvent` row records `signatureValid = true` — the value
is overridden to valid, not recorded as invalid/unknown as the claim
states. -/
theorem signatureValid_overridden_without_secret_cex :
    ((handleStripeWebhook none hmacToy ("u1") true 7 sampleDB
        { type := ("payment_intent.succeeded"),
          data := { id := some ("pi_1"), latest_charge := some ("ch_1") } }
        ("raw") ("sig")).1).events.map (fun e => e.signatureValid) = [true] ∧
    verifyStripeSignature hmacToy ("raw") ("sig") ("whsec") = false := by
  decide

/-- Witness for C8's amended theorem at the sample database. -/
theorem handleStripeWebhook_records_valid_without_secret_witness :
    ((handleStripeWebhook none hmacToy ("u2") true 7 sampleDB
        { type := ("payment_intent.succeeded"),
          data := { id := some ("pi_1"), latest_charge := some ("ch_1") } }
        ("raw") ("bad")).1).events.map (fun e => e.signatureValid) =
      sampleDB.events.map (fun e => e.signatureValid) ++ [true] :=
  handleStripeWebhook_records_valid_without_secret hmacToy ("u2") true 7
    sampleDB
    { type := ("payment_intent.succeeded"),
      data := { id := some ("pi_1"), latest_charge := some ("ch_1") } }
    ("raw") ("bad") (by decide)

/-! ## C6 -/

theorem contributions_withEvents (db : DB) (evs : List PaymentEvent) :
    ({ db with events := evs } : DB).contributions = db.contributions := rfl

theorem findContribution_withEvents (db : DB) (evs : List PaymentEvent)
    (cid : Nat) :
    findContribution { db with events := evs } cid = findContribution db cid :=
  rfl

theorem saveContribution_events (db : DB) (c : Contribution) :
    (saveContribution db c).events = db.events := rfl

/-- An event appended to the ledger is found by the duplicate check. -/
theorem findEvent_append_self {p : PaymentProvider} {eid : String}
    (events : List PaymentEvent) (ev : PaymentEvent)
    (hp : ev.provider = p) (hid : ev.externalEventId = eid) :
    (findEvent (events ++ [ev]) p eid).isSome = true :=
  findEvent_isSome_of_mem (List.mem_append_right _ (by simp)) hp hid

/-- The success payload for intent `pi_1`. -/
def sampleSuccessPayload : WebhookPayload :=
  { type := ("payment_intent.succeeded"),
    data := { id := some ("pi_1"), latest_charge := some ("ch_1") } }

/-- C6 counterexample: concrete refutation of "a subsequent redelivery of
the same event id re-attempts the side effect".  The first delivery hits
a transient aggregate-write failure: the event row is stored with
`processedAt = null` (this half of the claim holds).  But the redelivery
of the same event id is short-circuited by the row-existence duplicate
check: it returns success, changes nothing, and the campaign aggregate
remains at 0 — the side effect is never re-attempted. -/
theorem webhook_failure_not_retried_cex :
    ((handleStripeWebhook none hmacToy ("u1") false 7 sampleDB
        sampleSuccessPayload ("raw") ("sig")).1).events.map
        (fun e => (e.externalEventId, e.processedAt)) =
      [(("pi_1"), (none : Option Nat))] ∧
    handleStripeWebhook none hmacToy ("u1") true 8
        (handleStripeWebhook none hmacToy ("u1") false 7 sampleDB
          sampleSuccessPayload ("raw") ("sig")).1
        sampleSuccessPayload ("raw") ("sig") =
      ((handleStripeWebhook none hmacToy ("u1") false 7 sampleDB
          sampleSuccessPayload ("raw") ("sig")).1, .ok ()) ∧
    ((handleStripeWebhook none hmacToy ("u1") true 8
        (handleStripeWebhook none hmacToy ("u1") false 7 sampleDB
          sampleSuccessPayload ("raw") ("sig")).1
        sampleSuccessPayload ("raw") ("sig")).1).projects.map
        (fun p => p.stats) =
      [{ currentAmount := 0, backerCount := 0 }] := by
  decide

/-- C6 (amended): when the downstream step of `handleStripeWebhook`
fails transiently, the stored provider event is indeed not marked
processed (`processedAt` stays `null`) — but a subsequent redelivery of
the same event id does **not** re-attempt the side effect: the duplicate
check tests row existence, not `processedAt`, so the redelivery returns
success and leaves the database unchanged. -/
theorem handleStripeWebhook_failure_not_retried (secret : Option String)
    (hmacHex : String → String → String) (freshUuid : String)
    (now now2 : Nat) (db : DB) (payload : WebhookPayload)
    (rawBody signature : String) (i : String) (c : Contribution)
    (hid : payload.data.id = some i) (hine : i ≠ (""))
    (htype : payload.type = ("payment_intent.succeeded"))
    (hnodup : findEvent db.events .stripe i = none)
    (hfc : findContributionByIntent db.contributions payload.data.id = some c)
    (hfind : findContribution db c.id = some c)
    (hst : ¬c.status = .succeeded) :
    (handleStripeWebhook secret hmacHex freshUuid false now db payload
        rawBody signature).2 = .error .transientStorage ∧
    ((handleStripeWebhook secret hmacHex freshUuid false now db payload
        rawBody signature).1).events.map
        (fun e => (e.externalEventId, e.processedAt)) =
      db.events.map (fun e => (e.externalEventId, e.processedAt)) ++
        [(i, none)] ∧
    handleStripeWebhook secret hmacHex freshUuid true now2
        (handleStripeWebhook secret hmacHex freshUuid false now db payload
          rawBody signature).1 payload rawBody signature =
      ((handleStripeWebhook secret hmacHex freshUuid false now db payload
          rawBody signature).1, .ok ()) := by
  have heid : jsStringOr payload.data.id freshUuid = i := by
    rw [hid]
    simp [jsStringOr, hine]
  have hv : validContribution
      { c with
        status := .succeeded, paidAt := some now,
        payment := some
          { provider := .stripe, intentId := payload.data.id,
            chargeId := payload.data.latest_charge } } = true := by
    simp [validContribution, hid, jsFalsyStr, hine]
  unfold handleStripeWebhook processStripeEvent
  simp only [heid, hnodup, Option.isSome_none, Bool.false_eq_true, if_false,
    if_pos htype, contributions_withEvents, hfc]
  unfold markContributionSucceeded
  simp only [findContribution_withEvents, hfind, if_neg hst]
  unfold succeededWrites
  simp only [hv, eq_self_iff_true, if_true, Bool.false_eq_true, if_false,
    saveContribution_events]
  refine ⟨by simp, by simp, ?_⟩
  rw [if_pos (findEvent_append_self _ _ rfl rfl)]

/-- Witness for C6's amended theorem at the sample database. -/
theorem handleStripeWebhook_failure_not_retried_witness :
    (handleStripeWebhook none hmacToy ("u1") false 7 sampleDB
        sampleSuccessPayload ("raw") ("sig")).2 = .error .transientStorage ∧
    ((handleStripeWebhook none hmacToy ("u1") false 7 sampleDB
        sampleSuccessPayload ("raw") ("sig")).1).events.map
        (fun e => (e.externalEventId, e.processedAt)) =
      sampleDB.events.map (fun e => (e.externalEventId, e.processedAt)) ++
        [(("pi_1"), none)] ∧
    handleStripeWebhook none hmacToy ("u1") true 9
        (handleStripeWebhook none hmacToy ("u1") false 7 sampleDB
          sampleSuccessPayload ("raw") ("sig")).1
        sampleSuccessPayload ("raw") ("sig") =
      ((handleStripeWebhook none hmacToy ("u1") false 7 sampleDB
          sampleSuccessPayload ("raw") ("sig")).1, .ok ()) :=
  handleStripeWebhook_failure_not_retried none hmacToy ("u1") 7 9 sampleDB
    sampleSuccessPayload ("raw") ("sig") ("pi_1") sampleContribution
    (by decide) (by decide) (by decide) (by decide) (by decide) (by decide)
    (by decide)

/-! ## C7 -/

/-- Saving a modified copy of the found contribution makes the modified
copy what a subsequent lookup returns. -/
theorem saveContributionList_find? (l : List Contribution) (cid : Nat)
    (c c' : Contribution) (h : l.find? (fun x => x.id == cid) = some c)
    (hc : c'.id = c.id) :
    (saveContributionList c' l).find? (fun x => x.id == cid) = some c' := by
  induction l with
  | nil => simp at h
  | cons a l ih =>
    by_cases ha : (a.id == cid) = true
    · rw [@List.find?_cons_of_pos Contribution (fun x => x.id == cid) a l ha]
        at h
      obtain rfl : a = c := Option.some.inj h
      have h1 : (a.id == c'.id) = true := by simp [hc]
      have h2 : (c'.id == cid) = true := by
        rw [hc]
        exact ha
      simp only [saveContributionList, List.map_cons]
      rw [if_pos h1]
      exact @List.find?_cons_of_pos Contribution (fun x => x.id == cid) c' _ h2
    · rw [@List.find?_cons_of_neg Contribution (fun x => x.id == cid) a l ha]
        at h
      have hceq : c.id = cid := by simpa using List.find?_some h
      have hane : ¬((a.id == c'.id) = true) := by
        rw [hc, hceq]
        exact ha
      simp only [saveContributionList, List.map_cons]
      rw [if_neg hane]
      rw [@List.find?_cons_of_neg Contribution (fun x => x.id == cid) a _ ha]
      simpa [saveContributionList] using ih h

/-- Mapping a left inverse over a mapped list restores the list. -/
theorem map_map_id {α : Type} (f g : α → α) (h : ∀ a, g (f a) = a)
    (l : List α) : (l.map f).map g = l := by
  rw [List.map_map]
  have hfg : (g ∘ f) = id := funext h
  rw [hfg, List.map_id]

/-- The two campaign-stats `$inc` writes of opposite sign cancel. -/
theorem projectIncStatsList_cancel (pid : Nat) (a cnt : Int)
    (P : List Project) :
    projectIncStatsList pid (-a) (-cnt) (projectIncStatsList pid a cnt P) = P := by
  unfold projectIncStatsList
  apply map_map_id
  intro p
  by_cases h : (p.id == pid) = true
  · simp [h, add_neg_cancel_right]
  · simp [h]

/-- Incrementing and then decrementing the first matching reward's
backer count restores the reward list. -/
theorem incFirstReward_cancel (rid : String) (rs : List Reward) :
    incFirstReward rid (-1) (incFirstReward rid 1 rs) = rs := by
  induction rs with
  | nil => rfl
  | cons r rs ih =>
    by_cases h : (r.id == rid) = true
    · simp [incFirstReward, h, add_neg_cancel_right]
    · simp [incFirstReward, h, ih]

/-- The two reward `$inc` writes of opposite sign cancel. -/
theorem projectIncRewardBackersList_cancel (pid : Nat) (rid : String)
    (P : List Project) :
    projectIncRewardBackersList pid rid (-1)
      (projectIncRewardBackersList pid rid 1 P) = P := by
  unfold projectIncRewardBackersList
  apply map_map_id
  intro p
  by_cases h : (p.id == pid) = true
  · simp [h, incFirstReward_cancel]
  · simp [h]

/-- The two user-stats `$inc` writes of opposite sign cancel. -/
theorem userIncTotalList_cancel (uid : Nat) (a : Int) (U : List User) :
    userIncTotalList uid (-a) (userIncTotalList uid a U) = U := by
  unfold userIncTotalList
  apply map_map_id
  intro u
  by_cases h : (u.id == uid) = true
  · simp [h, add_neg_cancel_right]
  · simp [h]

/-- A stats `$inc` and a reward `$inc` touch different fields of a
project and commute. -/
theorem statsList_rewardList_comm (pid : Nat) (a cnt : Int) (rid : String)
    (d : Int) (P : List Project) :
    projectIncStatsList pid a cnt (projectIncRewardBackersList pid rid d P) =
      projectIncRewardBackersList pid rid d (projectIncStatsList pid a cnt P) := by
  unfold projectIncStatsList projectIncRewardBackersList
  rw [List.map_map, List.map_map]
  apply List.map_congr_left
  intro p _
  by_cases h : (p.id == pid) = true <;> simp [Function.comp, h]

/-- The record the forward transition writes to the contribution. -/
def succeededContribution (now : Nat) (pd : PaymentInfo) (c : Contribution) :
    Contribution :=
  { c with status := .succeeded, paidAt := some now, payment := some pd }

/-- The database state after the forward transition, written with one
update per collection; `succeededWrites_true_decomp` proves it equal to
the embedding's nested result. -/
def forwardStateView (now : Nat) (pd : PaymentInfo) (c : Contribution)
    (db : DB) : DB :=
  { contributions := saveContributionList (succeededContribution now pd c)
      db.contributions,
    projects := (match c.rewardId with
      | some rid => projectIncRewardBackersList c.projectId rid 1
      | none => id) (projectIncStatsList c.projectId c.amount 1 db.projects),
    users := (match c.userId with
      | some uid => userIncTotalList uid c.amount
      | none => id) db.users,
    events := db.events }

theorem succeededWrites_true_decomp (now : Nat) (pd : PaymentInfo)
    (c : Contribution) (db : DB) (hv : jsFalsyStr pd.intentId = false) :
    succeededWrites true now pd c db =
      (forwardStateView now pd c db, .ok (succeededContribution now pd c)) := by
  rcases hro : c.rewardId with _ | rid <;> rcases huo : c.userId with _ | uid <;>
    simp [succeededWrites, forwardStateView, succeededContribution,
      saveContribution, projectIncStats, projectIncRewardBackers,
      userIncTotal, validContribution, hv, hro, huo]

/-- The reverse transition, decomposed the same way. -/
theorem markContributionRefunded_decomp (db : DB) (cid : Nat)
    (c : Contribution) (hfind : findContribution db cid = some c)
    (hst : c.status = .succeeded) :
    markContributionRefunded db cid =
      ({ contributions := saveContributionList { c with status := .refunded }
           db.contributions,
         projects := (match c.rewardId with
           | some rid => projectIncRewardBackersList c.projectId rid (-1)
           | none => id)
           (projectIncStatsList c.projectId (-c.amount) (-1) db.projects),
         users := (match c.userId with
           | some uid => userIncTotalList uid (-c.amount)
           | none => id) db.users,
         events := db.events }, .ok { c with status := .refunded }) := by
  unfold markContributionRefunded
  simp only [hfind]
  rw [if_neg (by simp [hst])]
  rcases hro : c.rewardId with _ | rid <;> rcases huo : c.userId with _ | uid <;>
    simp [hro, huo, saveContribution, projectIncStats,
      projectIncRewardBackers, userIncTotal]

/-- Forward then reverse is the identity on the projects collection,
whether or not a reward is referenced. -/
theorem projects_roundtrip (pid : Nat) (a : Int) (ro : Option String)
    (P : List Project) :
    (match ro with
      | some rid => projectIncRewardBackersList pid rid (-1)
      | none => id)
      (projectIncStatsList pid (-a) (-1)
        ((match ro with
          | some rid => projectIncRewardBackersList pid rid 1
          | none => id)
          (projectIncStatsList pid a 1 P))) = P := by
  rcases ro with _ | rid
  · show projectIncStatsList pid (-a) (-1) (projectIncStatsList pid a 1 P) = P
    exact projectIncStatsList_cancel pid a 1 P
  · show projectIncRewardBackersList pid rid (-1)
      (projectIncStatsList pid (-a) (-1)
        (projectIncRewardBackersList pid rid 1
          (projectIncStatsList pid a 1 P))) = P
    rw [statsList_rewardList_comm, projectIncStatsList_cancel,
      projectIncRewardBackersList_cancel]

/-- Forward then reverse is the identity on the users collection. -/
theorem users_roundtrip (a : Int) (uo : Option Nat) (U : List User) :
    (match uo with
      | some uid => userIncTotalList uid (-a)
      | none => id)
      ((match uo with
        | some uid => userIncTotalList uid a
        | none => id) U) = U := by
  rcases uo with _ | uid
  · rfl
  · exact userIncTotalList_cancel uid a U

/-- C7: refunding a settled contribution applies the exact negation of
its forward effects.  Settling a found, not-yet-succeeded contribution
and then refunding it through `createRefund` succeeds and returns the
campaign stats, reward backer counts and user stats to their exact
original values (`spec-modelled`: the reversal inside
`markContributionRefunded` follows spec §4.2/§4.4, its source not being
among the provided files). -/
theorem createRefund_reverses_forward_aggregates (now : Nat) (db : DB)
    (cid : Nat) (pd : PaymentInfo) (c : Contribution) (s : String)
    (hfind : findContribution db cid = some c)
    (hst : ¬c.status = .succeeded)
    (hintent : pd.intentId = some s) (hs : s ≠ ("")) :
    (createRefund true (markContributionSucceeded true now db cid pd).1
        cid).2 = .ok () ∧
    ((createRefund true (markContributionSucceeded true now db cid pd).1
        cid).1).projects = db.projects ∧
    ((createRefund true (markContributionSucceeded true now db cid pd).1
        cid).1).users = db.users := by
  have hv : jsFalsyStr pd.intentId = false := by
    rw [hintent]
    simp [jsFalsyStr, hs]
  have hmark : markContributionSucceeded true now db cid pd =
      (forwardStateView now pd c db, .ok (succeededContribution now pd c)) := by
    unfold markContributionSucceeded
    simp only [hfind]
    rw [if_neg hst]
    exact succeededWrites_true_decomp now pd c db hv
  have hfind2 : findContribution (forwardStateView now pd c db) cid =
      some (succeededContribution now pd c) :=
    saveContributionList_find? db.contributions cid c
      (succeededContribution now pd c) hfind rfl
  have hrefund := markContributionRefunded_decomp (forwardStateView now pd c db)
    cid (succeededContribution now pd c) hfind2 rfl
  rw [hmark]
  have hcr : createRefund true (forwardStateView now pd c db) cid =
      ((markContributionRefunded (forwardStateView now pd c db) cid).1,
        .ok ()) := by
    unfold createRefund
    simp only [hfind2]
    rw [if_neg (by simp [succeededContribution])]
    rw [if_neg (by simp [succeededContribution, hv])]
    rw [if_neg (by simp)]
    rw [hrefund]
  rw [hcr, hrefund]
  refine ⟨rfl, ?_, ?_⟩
  · show (match (succeededContribution now pd c).rewardId with
      | some rid => projectIncRewardBackersList
          (succeededContribution now pd c).projectId rid (-1)
      | none => id)
      (projectIncStatsList (succeededContribution now pd c).projectId
        (-(succeededContribution now pd c).amount) (-1)
        (forwardStateView now pd c db).projects) = db.projects
    exact projects_roundtrip c.projectId c.amount c.rewardId db.projects
  · show (match (succeededContribution now pd c).userId with
      | some uid => userIncTotalList uid (-(succeededContribution now pd c).amount)
      | none => id) (forwardStateView now pd c db).users = db.users
    exact users_roundtrip c.amount c.userId db.users

/-- Witness for C7 at the sample database: settle the pending 500
contribution, then refund it; project and user aggregates return to
their initial values. -/
theorem createRefund_reverses_forward_aggregates_witness :
    (createRefund true (markContributionSucceeded true 7 sampleDB 1
        samplePayment).1 1).2 = .ok () ∧
    ((createRefund true (markContributionSucceeded true 7 sampleDB 1
        samplePayment).1 1).1).projects = sampleDB.projects ∧
    ((createRefund true (markContributionSucceeded true 7 sampleDB 1
        samplePayment).1 1).1).users = sampleDB.users :=
  createRefund_reverses_forward_aggregates 7 sampleDB 1 samplePayment
    sampleContribution ("pi_1") (by decide) (by decide) (by decide)
    (by decide)

/-! ## C10 -/

/-- Stamping preserves every row's `externalEventId`. -/
theorem stampEvent_extId_map (db : DB) (p : PaymentProvider) (eid : String)
    (now : Nat) (cid : Option Nat) :
    ((stampEvent db p eid now cid).events).map (fun e => e.externalEventId) =
      db.events.map (fun e => e.externalEventId) := by
  simp only [stampEvent, List.map_map]
  apply List.map_congr_left
  intro e _
  by_cases h : e.provider = p ∧ e.externalEventId = eid <;> simp [h]

/-- Downstream processing never removes or renames ledger rows, whatever
its outcome (stamped, thrown validation error, or thrown transient
error). -/
theorem processStripeEvent_extId_map (aggOk : Bool) (now : Nat)
    (eid : String) (payload : WebhookPayload) (db1 : DB) :
    ((processStripeEvent aggOk now eid payload db1).1).events.map
        (fun e => e.externalEventId) =
      db1.events.map (fun e => e.externalEventId) := by
  unfold processStripeEvent
  by_cases ht : payload.type = ("payment_intent.succeeded")
  · rw [if_pos ht]
    rcases hfc : findContributionByIntent db1.contributions payload.data.id
      with _ | c
    · simp [hfc, stampEvent_extId_map]
    · simp only [hfc]
      rcases hm : markContributionSucceeded aggOk now db1 c.id
          { provider := .stripe, intentId := payload.data.id,
            chargeId := payload.data.latest_charge } with ⟨db2, r⟩
      have hev : db2.events = db1.events := by
        have h2 := markContributionSucceeded_events aggOk now db1 c.id
          { provider := .stripe, intentId := payload.data.id,
            chargeId := payload.data.latest_charge }
        rw [hm] at h2
        exact h2
      rcases r with e | c' <;> simp [hm, stampEvent_extId_map, hev]
  · rw [if_neg ht]
    by_cases hf : payload.type = ("payment_intent.payment_failed")
    · rw [if_pos hf]
      rcases hfc : findContributionByIntent db1.contributions payload.data.id
        with _ | c
      · simp [hfc, stampEvent_extId_map]
      · simp only [hfc]
        rcases hm : markContributionFailed db1 c.id with ⟨db2, r⟩
        have hev : db2.events = db1.events := by
          have h2 := markContributionFailed_events db1 c.id
          rw [hm] at h2
          exact h2
        rcases r with e | c' <;> simp [hm, stampEvent_extId_map, hev]
    · rw [if_neg hf]
      exact stampEvent_extId_map db1 .stripe eid now none

/-- C10 counterexample: an id-less delivery is not always *processed*.
For an id-less `payment_intent.succeeded` payload over the sample
database, the intent lookup (its `undefined` filter value stripped by
Mongoose) resolves the first contribution, and `markContributionSucceeded`
then assigns a payment subdocument whose required `intentId` is
`undefined` — `save()` throws a `ValidationError`, the handler rethrows,
and the freshly admitted ledger row stays unprocessed, refuting the
claim's universal "admitted **and processed** as a new event". -/
theorem idless_success_payload_not_processed_cex :
    (handleStripeWebhook none hmacToy ("u9") true 7 sampleDB
        { type := ("payment_intent.succeeded"),
          data := { id := none, latest_charge := none } }
        ("raw") ("sig")).2 = .error .validation ∧
    ((handleStripeWebhook none hmacToy ("u9") true 7 sampleDB
        { type := ("payment_intent.succeeded"),
          data := { id := none, latest_charge := none } }
        ("raw") ("sig")).1).events.map
        (fun e => (e.externalEventId, e.processedAt)) =
      [(("u9"), (none : Option Nat))] := by
  decide

/-- C10 (amended): an id-less webhook is never matched as a duplicate.
When `payload.data` carries no (or an empty, JS-falsy) id, both handlers
substitute the freshly generated UUID as `externalEventId` before the
duplicate check; as long as that UUID does not collide with a stored
event id, every delivery is admitted as a new ledger row carrying the
UUID, with every earlier row's identity preserved — event-level
deduplication applies only when the payload carries an id.  The GoPay
handler moreover always returns success with the new row stamped
processed.  (The Stripe handler does not always process the admitted
row: see the counterexample.) -/
theorem idless_webhook_admitted_as_new (secret : Option String)
    (hmacHex : String → String → String) (freshUuid : String)
    (aggOk : Bool) (now : Nat) (db : DB) (payload : WebhookPayload)
    (rawBody signature : String)
    (hfalsy : jsFalsyStr payload.data.id = true)
    (hfreshS : ∀ e ∈ db.events, ¬(e.provider = PaymentProvider.stripe ∧
      e.externalEventId = freshUuid))
    (hfreshG : ∀ e ∈ db.events, ¬(e.provider = PaymentProvider.gopay ∧
      e.externalEventId = freshUuid)) :
    ((handleStripeWebhook secret hmacHex freshUuid aggOk now db payload
        rawBody signature).1).events.map (fun e => e.externalEventId) =
      db.events.map (fun e => e.externalEventId) ++ [freshUuid] ∧
    (handleGopayWebhook freshUuid now db payload).2 = .ok () ∧
    ((handleGopayWebhook freshUuid now db payload).1).events.map
        (fun e => (e.externalEventId, e.processedAt.isSome)) =
      db.events.map (fun e => (e.externalEventId, e.processedAt.isSome)) ++
        [(freshUuid, true)] := by
  have heid : jsStringOr payload.data.id freshUuid = freshUuid := by
    rcases hi : payload.data.id with _ | s
    · rfl
    · rw [hi] at hfalsy
      have hsv : s = ("") := by simpa [jsFalsyStr] using hfalsy
      simp [jsStringOr, hsv]
  have hnodupS : findEvent db.events .stripe freshUuid = none :=
    List.find?_eq_none.mpr (fun e he => by simpa using hfreshS e he)
  have hnodupG : findEvent db.events .gopay freshUuid = none :=
    List.find?_eq_none.mpr (fun e he => by simpa using hfreshG e he)
  refine ⟨?_, ?_, ?_⟩
  · unfold handleStripeWebhook
    simp only [heid, hnodupS, Option.isSome_none, Bool.false_eq_true, if_false]
    rw [processStripeEvent_extId_map]
    simp
  · unfold handleGopayWebhook
    simp only [heid, hnodupG, Option.isSome_none, Bool.false_eq_true, if_false]
  · unfold handleGopayWebhook
    simp only [heid, hnodupG, Option.isSome_none, Bool.false_eq_true, if_false]
    simp

/-- Witness for C10's amended theorem: an id-less payload delivered to a
database whose ledger already holds an unrelated event. -/
theorem idless_webhook_admitted_as_new_witness :
    ((handleStripeWebhook none hmacToy ("u7") true 7 sampleDBWithEvent
        { type := ("payment_intent.succeeded"),
          data := { id := none, latest_charge := none } }
        ("raw") ("sig")).1).events.map (fun e => e.externalEventId) =
      sampleDBWithEvent.events.map (fun e => e.externalEventId) ++
        [("u7")] ∧
    (handleGopayWebhook ("u7") 7 sampleDBWithEvent
        { type := ("payment_intent.succeeded"),
          data := { id := none, latest_charge := none } }).2 = .ok () ∧
    ((handleGopayWebhook ("u7") 7 sampleDBWithEvent
        { type := ("payment_intent.succeeded"),
          data := { id := none, latest_charge := none } }).1).events.map
        (fun e => (e.externalEventId, e.processedAt.isSome)) =
      sampleDBWithEvent.events.map
        (fun e => (e.externalEventId, e.processedAt.isSome)) ++
        [(("u7"), true)] :=
  idless_webhook_admitted_as_new none hmacToy ("u7") true 7 sampleDBWithEvent
    { type := ("payment_intent.succeeded"),
      data := { id := none, latest_charge := none } }
    ("raw") ("sig") (by decide) (by decide) (by decide)

end Crowdfunding
